import Mathlib

/-!
Shallow embedding of `rss-monitor/rss_monitor.py`, centred on the
`check_rss_feed` evaluation pass (item extraction, the two deduplication
gates, notification commit/rollback, end-of-pass store trimming) and on the
`save_config` cleanup logic.

Modelling conventions:
* Python `dict`s keyed by strings are modelled as association lists
  `List (String × _)` in insertion order; assignment replaces the value in
  place for an existing key and appends otherwise, deletion removes the key.
* Timestamps are `Int` seconds.  The source stores times as
  `'%Y-%m-%d %H:%M:%S'` strings and compares either parsed datetimes
  (`total_seconds`) or the raw strings (sort keys); for that zero-padded
  format lexicographic string order coincides with chronological order, so
  a single integer timestamp models both faithfully.
* Python string tests `a in b`, `startswith`, `lower`, `strip`, and
  slicing are modelled on the underlying character lists.
* BeautifulSoup queries cannot be embedded; an element/page is modelled by
  the results the source asks of it (`select`, `select_one`, `find_all`,
  `get_text`, `name == 'a'`, `get('href')`), carried as fields.
-/

namespace RssMonitor

/-- Python `s.lower()` (ASCII model). -/
def pyLower (s : String) : String := String.mk (s.toList.map Char.toLower)

/-- Python `s.strip()`: drop leading and trailing whitespace. -/
def pyStrip (s : String) : String :=
  String.mk (((s.toList.dropWhile Char.isWhitespace).reverse.dropWhile Char.isWhitespace).reverse)

/-- Python `s[:n]` for a string. -/
def pySlice (s : String) (n : Nat) : String := String.mk (s.toList.take n)

/-- Boolean infix test on character lists: `small` occurs contiguously in
`big` (the empty list occurs in everything, as Python `'' in s`). -/
def isInfixB (small : List Char) : List Char → Bool
  | [] => small.isEmpty
  | c :: rest => small.isPrefixOf (c :: rest) || isInfixB small rest

/-- Python `small in big` for strings. -/
def strContains (big small : String) : Bool := isInfixB small.toList big.toList

/-- Python `s.startswith(p)`. -/
def strStartsWith (s p : String) : Bool := p.toList.isPrefixOf s.toList

/-- `title.lower().strip()` — the normalized-title key (line 663). -/
def normTitle (s : String) : String := pyStrip (pyLower s)

/-- A `title_notifications` value: `{'title': …, 'link': …, 'time': …}`. -/
structure TitleRec where
  title : String
  link : String
  time : Int
  deriving DecidableEq, Repr

/-- A `notified_entries` value: `{'title': …, 'link': …, 'keywords': …, 'time': …}`. -/
structure NotifRec where
  title : String
  link : String
  keywords : List String
  time : Int
  deriving DecidableEq, Repr

/-- The `telegram` sub-dict of the config. -/
structure Telegram where
  bot_token : String
  chat_id : String
  deriving DecidableEq, Repr

/-- The durable state record (`config.json`). -/
structure Config where
  keywords : List String
  notified_entries : List (String × NotifRec)
  title_notifications : List (String × TitleRec)
  telegram : Telegram
  deriving DecidableEq, Repr

/-- Python `key in dict`. -/
def dictContains {α : Type} (l : List (String × α)) (k : String) : Bool :=
  l.any (fun p => p.1 == k)

/-- Python `dict[key] = value`: replace in place if present, else append. -/
def dictInsert {α : Type} (l : List (String × α)) (k : String) (v : α) :
    List (String × α) :=
  if dictContains l k then l.map (fun p => if p.1 = k then (k, v) else p)
  else l ++ [(k, v)]

/-- Python `del dict[key]`. -/
def dictDelete {α : Type} (l : List (String × α)) (k : String) : List (String × α) :=
  l.filter (fun p => !(p.1 == k))

/--
Lines 666-674: collect every title record older than 24 hours
(`(current_time - last_time).total_seconds() > 86400`) and delete it.
An entry is kept iff it is not expired.
-/
def purgeTitles (l : List (String × TitleRec)) (now : Int) : List (String × TitleRec) :=
  l.filter (fun p => !(decide (now - p.2.time > 86400)))

/-- An element viewed as the pair the source reads off it: `get('href')` and
`get_text(strip=True)`. -/
structure AElem where
  href : Option String
  text : String
  deriving DecidableEq, Repr

/-- A candidate post element.  `selectOne` models `post.select_one(css)`,
`links` models `post.find_all('a')` in document order, `isAnchor` models
`post.name == 'a'`, `href`/`text` are the element's own attribute and
stripped full text. -/
structure PostElem where
  isAnchor : Bool
  href : Option String
  text : String
  selectOne : String → Option AElem
  links : List AElem

/-- The title selector candidates (lines 548-554), in source order. -/
def title_selectors : List String :=
  ["a.post-title", ".post-title", "h3", "h2", ".title", "h4",
   "a[href*=\"/post/\"]", "a[href*=\"/topic/\"]", "a[href*=\"/thread/\"]",
   "a.subject", ".subject", "a.title", "td.topic-title a",
   "a[class*=\"title\"]", ".topic-name a", ".thread-title a", "a.thread-link",
   "a"]

/-- The link selector candidates (lines 610-614), in source order. -/
def link_selectors : List String :=
  ["a[href*=\"/post/\"]", "a[href*=\"/topic/\"]", "a[href*=\"/thread/\"]",
   "a[href*=\"/discussion/\"]", "a.subject", "a.title", "a[class*=\"title\"]",
   "a"]

/-- First selector in the list for which `select_one` returns an element
(lines 556-560; the loop breaks on the first hit, whatever its text). -/
def firstSelectHit (f : String → Option AElem) : List String → Option AElem
  | [] => none
  | s :: rest =>
    match f s with
    | some e => some e
    | none => firstSelectHit f rest

/-- Title element recovery (lines 546-577): selector chain, then the post
itself when it is an anchor, then the first of `find_all('a', limit=3)`. -/
def titleElement (post : PostElem) : Option AElem :=
  match firstSelectHit post.selectOne title_selectors with
  | some e => some e
  | none =>
    if post.isAnchor then some { href := post.href, text := post.text }
    else ((post.links.take 3).head?)

/-- Title text recovery (lines 580-593): the element's text; when empty,
the post's full text, truncated to its first 50 characters with `"..."`
appended when longer than 50. -/
def mkTitle (post : PostElem) (e : AElem) : String :=
  if e.text = "" then
    if post.text.length > 50 then pySlice post.text 50 ++ "..." else post.text
  else e.text

/-- Python truthiness of `element.get('href')`: `None` and `''` are falsy. -/
def hrefOf (e : AElem) : Option String :=
  match e.href with
  | some h => if h = "" then none else some h
  | none => none

/-- First link selector yielding an element with a truthy `href`
(lines 616-621). -/
def firstLinkHit (f : String → Option AElem) : List String → Option String
  | [] => none
  | s :: rest =>
    match f s with
    | some e =>
      match hrefOf e with
      | some h => some h
      | none => firstLinkHit f rest
    | none => firstLinkHit f rest

/-- Raw link recovery (lines 600-621): the title element's own `href`, else
the link-selector chain over the post. -/
def rawLink (post : PostElem) (e : AElem) : Option String :=
  match hrefOf e with
  | some h => some h
  | none => firstLinkHit post.selectOne link_selectors

/-- Lines 623-629: a link not starting with `http` is resolved against the
site origin, with or without an extra slash. -/
def resolveLink (l : String) : String :=
  if strStartsWith l "http" then l
  else if strStartsWith l "/" then "https://www.nodeseek.com" ++ l
  else "https://www.nodeseek.com/" ++ l

/-- `re.search(pat ++ r'(\d+)', s)` for a literal `pat`: leftmost position
where `pat` occurs immediately followed by at least one digit; the capture
is the maximal digit run there. -/
def searchNumAfter (pat : List Char) : List Char → Option (List Char)
  | [] => none
  | c :: rest =>
    if pat.isPrefixOf (c :: rest) then
      let ds := ((c :: rest).drop pat.length).takeWhile Char.isDigit
      if ds.isEmpty then searchNumAfter pat rest else some ds
    else searchNumAfter pat rest

/-- The post-id path patterns (lines 645-651), in source order. -/
def post_id_patterns : List String :=
  ["/post/", "/topic/", "/thread/", "/space/", "/discussion/"]

/-- First pattern whose regex search succeeds (lines 653-657). -/
def firstPatternId : List String → String → Option String
  | [], _ => none
  | p :: ps, link =>
    match searchNumAfter p.toList link.toList with
    | some ds => some (String.mk ds)
    | none => firstPatternId ps link

/-- Lines 643-660: numeric post id from the link, if any. -/
def extractPostId (link : String) : Option String :=
  firstPatternId post_id_patterns link

/-- Line 660: `f"post_{post_id}"` when an id was extracted, else the link. -/
def entryId (link : String) : String :=
  match extractPostId link with
  | some pid => "post_" ++ pid
  | none => link

/-- Outcome of per-item field recovery, before the dedup gates. -/
inductive ExtractResult where
  | noTitleElement
  | shortTitle
  | noLink
  | spaceLink
  | ok (title link eid : String)
  deriving DecidableEq, Repr

/-- Per-item field recovery (lines 546-660): title element, title text,
under-2-character rejection, link recovery and resolution, `/space/`
filtering, identity key. -/
def extractItem (post : PostElem) : ExtractResult :=
  match titleElement post with
  | none => .noTitleElement
  | some e =>
    if (mkTitle post e).length < 2 then .shortTitle
    else
      match rawLink post e with
      | none => .noLink
      | some l0 =>
        if strContains (resolveLink l0) "/space/" then .spaceLink
        else .ok (mkTitle post e) (resolveLink l0) (entryId (resolveLink l0))

/-- The title-similarity test of line 680:
`normalized_title == t_key or normalized_title in t_key or t_key in normalized_title`. -/
def similarTitle (nt tkey : String) : Bool :=
  nt == tkey || strContains tkey nt || strContains nt tkey

/-- Lines 676-686: after purging expired records, the item is suppressed when
some remaining record has a similar key and is less than 2 hours old. -/
def titleHit (cfg : Config) (nt : String) (now : Int) : Bool :=
  (purgeTitles cfg.title_notifications now).any
    (fun p => similarTitle nt p.1 && decide (now - p.2.time < 7200))

/-- Lines 697-700: keywords whose lower-case text occurs in the lower-case
title. -/
def matchedKeywords (kws : List String) (title : String) : List String :=
  kws.filter (fun k => strContains (pyLower title) (pyLower k))

/-- How the evaluation pass disposed of one item. -/
inductive ItemResult where
  | noTitleElement
  | shortTitle
  | noLink
  | spaceLink
  | titleGate
  | idGate
  | noKeyword
  | notified (delivered : Bool)
  deriving DecidableEq, Repr

/-- The per-item body of the `for post in post_items` loop
(lines 539-732): field recovery, 24-hour purge, title-similarity gate,
identity gate, keyword match, record writes, send, and rollback of the
identity record on delivery failure.  `sendOk` stands for the boolean
result of `send_telegram_message`. -/
def processPost (cfg : Config) (post : PostElem) (now : Int) (sendOk : Bool) :
    Config × ItemResult :=
  match extractItem post with
  | .noTitleElement => (cfg, .noTitleElement)
  | .shortTitle => (cfg, .shortTitle)
  | .noLink => (cfg, .noLink)
  | .spaceLink => (cfg, .spaceLink)
  | .ok title link eid =>
    let nt := normTitle title
    let purgedT := purgeTitles cfg.title_notifications now
    if titleHit cfg nt now then
      ({cfg with title_notifications := purgedT}, .titleGate)
    else if dictContains cfg.notified_entries eid then
      ({cfg with title_notifications := purgedT}, .idGate)
    else
      let matched := matchedKeywords cfg.keywords title
      if matched.isEmpty then
        ({cfg with title_notifications := purgedT}, .noKeyword)
      else
        let newTitles := dictInsert purgedT nt { title := title, link := link, time := now }
        let newNotif := dictInsert cfg.notified_entries eid
          { title := title, link := link, keywords := matched, time := now }
        if sendOk then
          ({cfg with title_notifications := newTitles, notified_entries := newNotif},
           .notified true)
        else
          ({cfg with title_notifications := newTitles,
                     notified_entries := dictDelete newNotif eid},
           .notified false)

/-- Folding the item loop over the whole `post_items` list; each item comes
with its own `datetime.now()` sample and send outcome. -/
def runItems (cfg : Config) (posts : List (PostElem × Int × Bool)) : Config :=
  posts.foldl (fun c pib => (processPost c pib.1 pib.2.1 pib.2.2).1) cfg

/-- `sorted(store.items(), key=time, reverse=True)`: descending by the
given time projection. -/
def sortDesc {α : Type} (f : α → Int) (l : List α) : List α :=
  List.insertionSort (fun a b => f b ≤ f a) l

/-- Lines 739-751: keep only the newest 50 notification records when the
store exceeds 50. -/
def trimNotified (l : List (String × NotifRec)) : List (String × NotifRec) :=
  if l.length > 50 then (sortDesc (fun p => p.2.time) l).take 50 else l

/-- Lines 753-765: keep only the newest 100 title records when the store
exceeds 100. -/
def trimTitles (l : List (String × TitleRec)) : List (String × TitleRec) :=
  if l.length > 100 then (sortDesc (fun p => p.2.time) l).take 100 else l

/-- One whole evaluation pass over the discovered items, followed by the
end-of-pass store trims (the state handed to `save_config`). -/
def check_rss_feed_pass (cfg : Config) (posts : List (PostElem × Int × Bool)) : Config :=
  let c := runItems cfg posts
  { c with notified_entries := trimNotified c.notified_entries,
           title_notifications := trimTitles c.title_notifications }

/-- The parsed page.  `titleText` models `soup.title` (text when present),
`select` models `soup.select(css)` in document order, `allDivs` models
`soup.find_all('div')` in document order. -/
structure Soup where
  titleText : Option String
  select : String → List PostElem
  allDivs : List PostElem

/-- The ordered discovery selector list (lines 444-466). -/
def selectors_to_try : List String :=
  [".post-list .post-item", ".post-card", ".post-item", ".category-post-item",
   "article", ".topic-item", ".thread-item", ".card", ".topic-list .topic",
   ".topic-list .topic-item", ".topic-list tr", ".row.topic-list-item",
   ".node-teaser", "tbody tr", ".item", ".list-item", ".thread", ".post",
   "a.subject", "[class*=\"post\"]", "[class*=\"topic\"]"]

/-- Lines 470-478: the first selector returning at least 5 matches. -/
def firstHit (soup : Soup) : Option String :=
  selectors_to_try.find? (fun sel => decide (5 ≤ (soup.select sel).length))

/-- Lines 488-499: divs among the first 100 with at least one link
(`find_all('a', limit=5)`) and more than 20 characters of text; the scan
stops at 40 and the result is sliced to 40. -/
def divFallback (soup : Soup) : List PostElem :=
  (((soup.allDivs.take 100).filter
      (fun d => !(d.links.take 5).isEmpty && decide (d.text.length > 20))).take 40)

/-- The combined content-path link selector of lines 504-505. -/
def contentLinkSelector : String :=
  "a[href*=\"/post/\"], a[href*=\"/topic/\"], a[href*=\"/thread/\"], a[href*=\"/discussion/\"]"

/-- Item discovery (lines 468-517): first selector with 5+ matches capped at
40, else divs-with-links, else content-path links, else table rows without
the header row. -/
def findPosts (soup : Soup) : List PostElem :=
  match firstHit soup with
  | some sel => (soup.select sel).take 40
  | none =>
    let divs := divFallback soup
    if divs.isEmpty then
      let ls := (soup.select contentLinkSelector).take 40
      if ls.isEmpty then
        let rows := (soup.select "table tr").take 40
        if rows.length > 1 then
          (if rows.length > 40 then (rows.drop 1).take 39 else rows.drop 1)
        else []
      else ls
    else divs

/-- Page validation (lines 409-419): expected substring in the page title,
or a navbar/header/footer landmark. -/
def isValidPage (soup : Soup) : Bool :=
  (match soup.titleText with
   | some t => strContains t "NodeSeek" || strContains t "论坛"
   | none => false)
  || !(soup.select ".navbar").isEmpty
  || !(soup.select "header").isEmpty
  || !(soup.select "footer").isEmpty

/-- How one fetch attempt of `check_rss_feed` classifies the page. -/
inductive PageOutcome where
  | structureMismatch
  | noItems
  | itemsFound
  deriving DecidableEq, Repr

/-- What the attempt does next: whether it executes
`need_cookie_refresh = True`, and whether it retries with the backoff
delay when attempts remain. -/
structure AttemptResult where
  outcome : PageOutcome
  needCookieRefresh : Bool
  retriesWithBackoff : Bool
  deriving DecidableEq, Repr

/-- Lines 409-437 and 519-533: an invalid page forces a cookie refresh and
a backoff retry; a valid page with zero discovered items also forces a
cookie refresh (line 522) and a backoff retry; items proceed. -/
def classifyAttempt (soup : Soup) : AttemptResult :=
  if isValidPage soup then
    match findPosts soup with
    | [] => ⟨.noItems, true, true⟩
    | _ => ⟨.itemsFound, false, false⟩
  else ⟨.structureMismatch, true, true⟩

/-- Line 389 / 798: the backoff delay `retry_delay * (attempt + 2)` with
`retry_delay = 10`. -/
def retryDelaySeconds (attempt : Nat) : Nat := 10 * (attempt + 2)

/-- `save_config` lines 129-148: the pre-serialization 50/100 trims (the
same sort-and-slice as the end-of-pass trims). -/
def saveConfigPretrim (c : Config) : Config :=
  { c with notified_entries := trimNotified c.notified_entries,
           title_notifications := trimTitles c.title_notifications }

/-- `save_config` lines 150-186.  `tooBig c1` abstracts the test
`len(json.dumps(c1, ensure_ascii=False)) > 1024 * 1024` on the pre-trimmed
record: when it holds, the record is replaced by one keeping the keywords
and telegram settings and only the 20 newest entries of each store. -/
def save_config_prepare (c : Config) (tooBig : Config → Bool) : Config :=
  let c1 := saveConfigPretrim c
  if tooBig c1 then
    { keywords := c1.keywords,
      telegram := c1.telegram,
      notified_entries := (sortDesc (fun p => p.2.time) c1.notified_entries).take 20,
      title_notifications := (sortDesc (fun p => p.2.time) c1.title_notifications).take 20 }
  else c1

/-! Concrete fixtures used by the witness theorems. -/

/-- A post whose first title selector yields a `/post/123` anchor titled
`hello`. -/
def wPost : PostElem :=
  { isAnchor := false, href := none, text := "hello world post",
    selectOne := fun _ => some { href := some "/post/123", text := "hello" },
    links := [] }

/-- A different post (other link and id) whose title normalizes to the same
string as `wPost`'s. -/
def wPost2 : PostElem :=
  { isAnchor := false, href := none, text := "other",
    selectOne := fun _ => some { href := some "/post/999", text := "Hello" },
    links := [] }

/-- A post whose recovered link is a user-space link. -/
def wPostSpace : PostElem :=
  { isAnchor := false, href := none, text := "other",
    selectOne := fun _ => some { href := some "/space/55", text := "hello" },
    links := [] }

/-- Base config with one keyword and empty stores. -/
def wCfg : Config :=
  { keywords := ["hello"], notified_entries := [], title_notifications := [],
    telegram := { bot_token := "", chat_id := "" } }

/-- Config already holding the identity record of `wPost`. -/
def wCfgId : Config :=
  { wCfg with notified_entries :=
      [("post_123", { title := "old", link := "l", keywords := [], time := 0 })] }

/-- Config already holding a title record equal to `wPost`'s normalized
title. -/
def wCfgTitle : Config :=
  { wCfg with title_notifications :=
      [("hello", { title := "hello", link := "l", time := 0 })] }

/-- Config with 51 notification records, timestamps 0..50. -/
def c4cfg : Config :=
  { keywords := [],
    notified_entries := (List.range 51).map
      (fun i => (toString i, { title := "t", link := "l", keywords := [], time := (i : Int) })),
    title_notifications := [],
    telegram := { bot_token := "", chat_id := "" } }

/-- A post whose found title element has empty text and whose own text has
60 characters. -/
def c7post : PostElem :=
  { isAnchor := false, href := none,
    text := "aaaaaaaaaaaaaaaaaaaaaaaaaaaaaaaaaaaaaaaaaaaaaaaaaaaaaaaaaaaa",
    selectOne := fun _ => some { href := none, text := "" },
    links := [] }

/-- The empty-text element `c7post.selectOne` returns. -/
def c7elem : AElem := { href := none, text := "" }

/-- A page that validates as the expected source but yields zero items from
every strategy and fallback. -/
def noItemsSoup : Soup :=
  { titleText := some "NodeSeek - 创新源于分享", select := fun _ => [], allDivs := [] }

/-- A page that fails validation (no title text, no landmarks). -/
def mismatchSoup : Soup :=
  { titleText := none, select := fun _ => [], allDivs := [] }

/-- A page whose second discovery selector yields five items. -/
def wSoup : Soup :=
  { titleText := some "NodeSeek", allDivs := [],
    select := fun sel =>
      if sel == ".post-card" then [wPost, wPost, wPost, wPost, wPost] else [] }

/-- Config with a few records of distinct timestamps, for the oversize-save
witness. -/
def c10cfg : Config :=
  { keywords := ["k"],
    notified_entries :=
      [("a", { title := "t1", link := "l1", keywords := [], time := 5 }),
       ("b", { title := "t2", link := "l2", keywords := [], time := 1 }),
       ("c", { title := "t3", link := "l3", keywords := [], time := 9 })],
    title_notifications :=
      [("x", { title := "x", link := "l", time := 4 }),
       ("y", { title := "y", link := "l", time := 2 })],
    telegram := { bot_token := "t", chat_id := "c" } }

/-! Helper lemmas about the dictionary and sorting models. -/

lemma mem_dictInsert_self {α : Type} (l : List (String × α)) (k : String) (v : α) :
    (k, v) ∈ dictInsert l k v := by
  unfold dictInsert
  split
  next h =>
    obtain ⟨p, hp, hpk⟩ := List.any_eq_true.mp h
    have hk : p.1 = k := by simpa using hpk
    exact List.mem_map.mpr ⟨p, hp, by simp [hk]⟩
  next h =>
    exact List.mem_append.mpr (Or.inr (by simp))

lemma dictContains_dictDelete_self {α : Type} (l : List (String × α)) (k : String) :
    dictContains (dictDelete l k) k = false := by
  rw [Bool.eq_false_iff]
  intro h
  obtain ⟨p, hp, hpk⟩ := List.any_eq_true.mp h
  have h2 := (List.mem_filter.mp hp).2
  simp [hpk] at h2

lemma mem_purgeTitles (l : List (String × TitleRec)) (now : Int) (p : String × TitleRec) :
    p ∈ purgeTitles l now ↔ p ∈ l ∧ now - p.2.time ≤ 86400 := by
  simp [purgeTitles, List.mem_filter, Int.not_lt]

lemma purgeTitles_sublist (l : List (String × TitleRec)) (now : Int) :
    (purgeTitles l now).Sublist l :=
  List.filter_sublist l

lemma sortDesc_sorted {α : Type} (f : α → Int) (l : List α) :
    List.Sorted (fun a b => f b ≤ f a) (sortDesc f l) := by
  haveI h1 : IsTotal α (fun a b => f b ≤ f a) := ⟨fun a b => le_total (f b) (f a)⟩
  haveI h2 : IsTrans α (fun a b => f b ≤ f a) := ⟨fun _ _ _ hab hbc => le_trans hbc hab⟩
  exact List.sorted_insertionSort _ l

lemma sortDesc_perm {α : Type} (f : α → Int) (l : List α) :
    List.Perm (sortDesc f l) l :=
  List.perm_insertionSort _ l

lemma sortDesc_take_drop {α : Type} (f : α → Int) (l : List α) (n : Nat) :
    ∀ a ∈ (sortDesc f l).take n, ∀ b ∈ (sortDesc f l).drop n, f b ≤ f a := by
  intro a ha b hb
  have hs := sortDesc_sorted f l
  have hp : List.Pairwise (fun a b => f b ≤ f a)
      ((sortDesc f l).take n ++ (sortDesc f l).drop n) := by
    rw [List.take_append_drop]; exact hs
  exact (List.pairwise_append.mp hp).2.2 a ha b hb

/-- Claim C1: an item whose identity key is already present in
`notified_entries` at evaluation time is skipped: it is never notified, its
identity record is untouched, and the title store is changed only by the
unconditional 24-hour expiry purge (entries within 24 hours survive
unchanged and nothing is added). -/
theorem identity_gate_idempotent (cfg : Config) (post : PostElem) (now : Int)
    (sendOk : Bool) (title link eid : String)
    (hx : extractItem post = .ok title link eid)
    (hmem : dictContains cfg.notified_entries eid = true) :
    (∀ b, (processPost cfg post now sendOk).2 ≠ .notified b) ∧
    (processPost cfg post now sendOk).1.notified_entries = cfg.notified_entries ∧
    (processPost cfg post now sendOk).1.title_notifications.Sublist
      cfg.title_notifications ∧
    (∀ p ∈ cfg.title_notifications, now - p.2.time ≤ 86400 →
      p ∈ (processPost cfg post now sendOk).1.title_notifications) := by
  by_cases hT : titleHit cfg (normTitle title) now
  · have h1 : processPost cfg post now sendOk =
        ({cfg with title_notifications := purgeTitles cfg.title_notifications now},
         .titleGate) := by
      simp [processPost, hx, hT]
    rw [h1]
    refine ⟨by intro b; simp, rfl, purgeTitles_sublist _ _, ?_⟩
    intro p hp hle
    exact (mem_purgeTitles _ _ _).mpr ⟨hp, hle⟩
  · have h1 : processPost cfg post now sendOk =
        ({cfg with title_notifications := purgeTitles cfg.title_notifications now},
         .idGate) := by
      simp [processPost, hx, hT, hmem]
    rw [h1]
    refine ⟨by intro b; simp, rfl, purgeTitles_sublist _ _, ?_⟩
    intro p hp hle
    exact (mem_purgeTitles _ _ _).mpr ⟨hp, hle⟩

/-- Witness for C1 at a concrete config already holding `post_123`. -/
theorem identity_gate_idempotent_witness :
    dictContains wCfgId.notified_entries "post_123" = true ∧
    (processPost wCfgId wPost 5 true).2 ≠ .notified true ∧
    (processPost wCfgId wPost 5 true).1.notified_entries = wCfgId.notified_entries := by
  have h := identity_gate_idempotent wCfgId wPost 5 true
    "hello" "https://www.nodeseek.com/post/123" "post_123" (by decide) (by decide)
  exact ⟨by decide, h.1 true, h.2.1⟩

/-- Inversion: when the pass reports `.notified b` for an item, the gates
passed, `b` is the delivery result, the title record was written, and the
identity record was written (and rolled back again on failure). -/
lemma processPost_notified_spec (cfg : Config) (post : PostElem) (now : Int)
    (sendOk : Bool) (cfg1 : Config) (b : Bool) (title link eid : String)
    (hx : extractItem post = .ok title link eid)
    (hp : processPost cfg post now sendOk = (cfg1, .notified b)) :
    b = sendOk ∧
    cfg1.title_notifications =
      dictInsert (purgeTitles cfg.title_notifications now) (normTitle title)
        { title := title, link := link, time := now } ∧
    cfg1.notified_entries =
      (if sendOk then
        dictInsert cfg.notified_entries eid
          { title := title, link := link,
            keywords := matchedKeywords cfg.keywords title, time := now }
       else
        dictDelete (dictInsert cfg.notified_entries eid
          { title := title, link := link,
            keywords := matchedKeywords cfg.keywords title, time := now }) eid) := by
  simp only [processPost, hx] at hp
  split at hp
  · simp at hp
  · split at hp
    · simp at hp
    · split at hp
      · simp at hp
      · split at hp
        next hs =>
          rw [Prod.mk.injEq] at hp
          obtain ⟨hc, hb⟩ := hp
          injection hb with hb
          subst hb hc hs
          simp
        next hs =>
          rw [Prod.mk.injEq] at hp
          obtain ⟨hc, hb⟩ := hp
          injection hb with hb
          subst hb hc
          simp [Bool.not_eq_true] at hs
          subst hs
          simp

/-- Claim C2: once an item has been notified (even unsuccessfully), any item
whose normalized title is equal to, contains, or is contained in the first
item's normalized title and which is evaluated within 7200 seconds is
skipped by the title-similarity gate, whatever its link or id. -/
theorem title_gate_suppresses_similar
    (cfg cfg1 : Config) (post1 post2 : PostElem) (t1 t2 : Int) (s1 s2 : Bool)
    (b : Bool) (title1 l1 e1 title2 l2 e2 : String)
    (h1 : extractItem post1 = .ok title1 l1 e1)
    (h2 : extractItem post2 = .ok title2 l2 e2)
    (hp : processPost cfg post1 t1 s1 = (cfg1, .notified b))
    (hsim : similarTitle (normTitle title2) (normTitle title1) = true)
    (ht0 : 0 ≤ t2 - t1) (ht : t2 - t1 < 7200) :
    (processPost cfg1 post2 t2 s2).2 = .titleGate := by
  obtain ⟨-, hT, -⟩ := processPost_notified_spec cfg post1 t1 s1 cfg1 b title1 l1 e1 h1 hp
  have hmem : (normTitle title1,
      ({ title := title1, link := l1, time := t1 } : TitleRec)) ∈
      cfg1.title_notifications := by
    rw [hT]; exact mem_dictInsert_self _ _ _
  have hhit : titleHit cfg1 (normTitle title2) t2 = true := by
    apply List.any_eq_true.mpr
    refine ⟨(normTitle title1, { title := title1, link := l1, time := t1 }), ?_, ?_⟩
    · exact (mem_purgeTitles _ _ _).mpr ⟨hmem, by show t2 - t1 ≤ 86400; omega⟩
    · simp only [hsim, Bool.true_and, decide_eq_true_eq]
      show t2 - t1 < 7200
      omega
  simp [processPost, h2, hhit]

/-- Witness for C2: `wPost` is notified, then `wPost2` (same normalized
title `hello`, different link and id) 100 seconds later is stopped by the
title gate. -/
theorem title_gate_suppresses_similar_witness :
    similarTitle (normTitle "Hello") (normTitle "hello") = true ∧
    (processPost (processPost wCfg wPost 0 true).1 wPost2 100 true).2 = .titleGate := by
  refine ⟨by decide, ?_⟩
  exact title_gate_suppresses_similar wCfg (processPost wCfg wPost 0 true).1
    wPost wPost2 0 100 true true true
    "hello" "https://www.nodeseek.com/post/123" "post_123"
    "Hello" "https://www.nodeseek.com/post/999" "post_999"
    (by decide) (by decide) (by decide) (by decide) (by decide) (by decide)

/-- Claim C3: when delivery fails, the identity record is rolled back (the
key is absent afterwards) while the title record is kept; re-evaluating the
same item within 7200 seconds is stopped by the title gate, so it is not
re-notified, but its identity key is eligible again. -/
theorem delivery_failure_rollback
    (cfg cfg1 : Config) (post : PostElem) (t1 : Int)
    (title link eid : String)
    (hx : extractItem post = .ok title link eid)
    (hp : processPost cfg post t1 false = (cfg1, .notified false)) :
    dictContains cfg1.notified_entries eid = false ∧
    (normTitle title, ({ title := title, link := link, time := t1 } : TitleRec)) ∈
      cfg1.title_notifications ∧
    (∀ t2 s2, 0 ≤ t2 - t1 → t2 - t1 < 7200 →
      (processPost cfg1 post t2 s2).2 = .titleGate) := by
  obtain ⟨-, hT, hN⟩ :=
    processPost_notified_spec cfg post t1 false cfg1 false title link eid hx hp
  simp only [Bool.false_eq_true, if_false] at hN
  refine ⟨?_, ?_, ?_⟩
  · rw [hN]; exact dictContains_dictDelete_self _ _
  · rw [hT]; exact mem_dictInsert_self _ _ _
  · intro t2 s2 h0 h7
    have hmem : (normTitle title,
        ({ title := title, link := link, time := t1 } : TitleRec)) ∈
        cfg1.title_notifications := by
      rw [hT]; exact mem_dictInsert_self _ _ _
    have hhit : titleHit cfg1 (normTitle title) t2 = true := by
      apply List.any_eq_true.mpr
      refine ⟨(normTitle title, { title := title, link := link, time := t1 }), ?_, ?_⟩
      · exact (mem_purgeTitles _ _ _).mpr ⟨hmem, by show t2 - t1 ≤ 86400; omega⟩
      · simp only [similarTitle, beq_self_eq_true, Bool.true_or, Bool.true_and,
          decide_eq_true_eq]
        show t2 - t1 < 7200
        omega
    simp [processPost, hx, hhit]

/-- Witness for C3: failed delivery for `wPost` leaves no identity record,
keeps the title record, and a retry 100 seconds later hits the title gate. -/
theorem delivery_failure_rollback_witness :
    (processPost wCfg wPost 0 false).2 = .notified false ∧
    dictContains (processPost wCfg wPost 0 false).1.notified_entries "post_123" = false ∧
    (processPost (processPost wCfg wPost 0 false).1 wPost 100 true).2 = .titleGate := by
  have h := delivery_failure_rollback wCfg (processPost wCfg wPost 0 false).1
    wPost 0 "hello" "https://www.nodeseek.com/post/123" "post_123"
    (by decide) (by decide)
  exact ⟨by decide, h.1, h.2.2 100 true (by decide) (by decide)⟩

lemma trimNotified_spec (l : List (String × NotifRec)) :
    (trimNotified l).length ≤ max 50 l.length ∧
    (∀ a ∈ trimNotified l, a ∈ l) ∧
    (l.length > 50 →
      trimNotified l = (sortDesc (fun p => p.2.time) l).take 50 ∧
      (trimNotified l).length ≤ 50) ∧
    (l.length ≤ 50 → trimNotified l = l) := by
  unfold trimNotified
  split
  next h =>
    refine ⟨?_, ?_, fun _ => ⟨rfl, ?_⟩, fun h2 => absurd h2 (by omega)⟩
    · calc ((sortDesc (fun p => p.2.time) l).take 50).length ≤ 50 :=
            by rw [List.length_take]; omega
        _ ≤ max 50 l.length := le_max_left _ _
    · intro a ha
      exact (sortDesc_perm (fun p => p.2.time) l).subset (List.mem_of_mem_take ha)
    · rw [List.length_take]; omega
  next h =>
    exact ⟨le_max_of_le_right le_rfl, fun a ha => ha,
      fun h2 => absurd h2 (by omega), fun _ => rfl⟩

lemma trimTitles_spec (l : List (String × TitleRec)) :
    (trimTitles l).length ≤ max 100 l.length ∧
    (∀ a ∈ trimTitles l, a ∈ l) ∧
    (l.length > 100 →
      trimTitles l = (sortDesc (fun p => p.2.time) l).take 100 ∧
      (trimTitles l).length ≤ 100) ∧
    (l.length ≤ 100 → trimTitles l = l) := by
  unfold trimTitles
  split
  next h =>
    refine ⟨?_, ?_, fun _ => ⟨rfl, ?_⟩, fun h2 => absurd h2 (by omega)⟩
    · calc ((sortDesc (fun p => p.2.time) l).take 100).length ≤ 100 :=
            by rw [List.length_take]; omega
        _ ≤ max 100 l.length := le_max_left _ _
    · intro a ha
      exact (sortDesc_perm (fun p => p.2.time) l).subset (List.mem_of_mem_take ha)
    · rw [List.length_take]; omega
  next h =>
    exact ⟨le_max_of_le_right le_rfl, fun a ha => ha,
      fun h2 => absurd h2 (by omega), fun _ => rfl⟩

/-- Claim C4: after an evaluation pass the notification store holds at most
50 records and the title store at most 100; when a trim fires it keeps
exactly the 50 (resp. 100) head of the descending-by-time sort — every
retained record's timestamp is at least every evicted record's timestamp —
and when the cap is not exceeded nothing is removed. -/
theorem store_caps_after_pass (cfg : Config) (posts : List (PostElem × Int × Bool)) :
    (check_rss_feed_pass cfg posts).notified_entries.length ≤ 50 ∧
    (check_rss_feed_pass cfg posts).title_notifications.length ≤ 100 ∧
    (∀ a ∈ (check_rss_feed_pass cfg posts).notified_entries,
      a ∈ (runItems cfg posts).notified_entries) ∧
    (∀ a ∈ (check_rss_feed_pass cfg posts).title_notifications,
      a ∈ (runItems cfg posts).title_notifications) ∧
    ((runItems cfg posts).notified_entries.length > 50 →
      (check_rss_feed_pass cfg posts).notified_entries =
        (sortDesc (fun p => p.2.time) (runItems cfg posts).notified_entries).take 50 ∧
      (∀ a ∈ (check_rss_feed_pass cfg posts).notified_entries,
       ∀ b ∈ (sortDesc (fun p => p.2.time) (runItems cfg posts).notified_entries).drop 50,
         b.2.time ≤ a.2.time)) ∧
    ((runItems cfg posts).notified_entries.length ≤ 50 →
      (check_rss_feed_pass cfg posts).notified_entries =
        (runItems cfg posts).notified_entries) ∧
    ((runItems cfg posts).title_notifications.length > 100 →
      (check_rss_feed_pass cfg posts).title_notifications =
        (sortDesc (fun p => p.2.time) (runItems cfg posts).title_notifications).take 100 ∧
      (∀ a ∈ (check_rss_feed_pass cfg posts).title_notifications,
       ∀ b ∈ (sortDesc (fun p => p.2.time)
                (runItems cfg posts).title_notifications).drop 100,
         b.2.time ≤ a.2.time)) ∧
    ((runItems cfg posts).title_notifications.length ≤ 100 →
      (check_rss_feed_pass cfg posts).title_notifications =
        (runItems cfg posts).title_notifications) := by
  have hpass :
      (check_rss_feed_pass cfg posts).notified_entries =
        trimNotified (runItems cfg posts).notified_entries ∧
      (check_rss_feed_pass cfg posts).title_notifications =
        trimTitles (runItems cfg posts).title_notifications := by
    simp [check_rss_feed_pass]
  obtain ⟨hN, hT⟩ := hpass
  obtain ⟨nb, nmem, ngt, nle⟩ := trimNotified_spec (runItems cfg posts).notified_entries
  obtain ⟨tb, tmem, tgt, tle⟩ := trimTitles_spec (runItems cfg posts).title_notifications
  rw [hN, hT]
  refine ⟨?_, ?_, nmem, tmem, ?_, nle, ?_, tle⟩
  · by_cases h : (runItems cfg posts).notified_entries.length > 50
    · exact (ngt h).2
    · rw [nle (by omega)]; omega
  · by_cases h : (runItems cfg posts).title_notifications.length > 100
    · exact (tgt h).2
    · rw [tle (by omega)]; omega
  · intro h
    refine ⟨(ngt h).1, ?_⟩
    rw [(ngt h).1]
    exact fun a ha b hb => sortDesc_take_drop (fun p => p.2.time) _ 50 a ha b hb
  · intro h
    refine ⟨(tgt h).1, ?_⟩
    rw [(tgt h).1]
    exact fun a ha b hb => sortDesc_take_drop (fun p => p.2.time) _ 100 a ha b hb

/-- Witness for C4: a 51-record store is trimmed to the 50 newest. -/
theorem store_caps_after_pass_witness :
    (runItems c4cfg []).notified_entries.length > 50 ∧
    (check_rss_feed_pass c4cfg []).notified_entries =
      (sortDesc (fun p => p.2.time) (runItems c4cfg []).notified_entries).take 50 ∧
    (check_rss_feed_pass c4cfg []).notified_entries.length ≤ 50 := by
  have h := store_caps_after_pass c4cfg []
  exact ⟨by decide, (h.2.2.2.2.1 (by decide)).1, h.1⟩

/-- Claim C5: membership in the purged title store is exactly membership in
the original store at age at most 24 hours; and whenever the
title-similarity gate suppresses an item, the store it consulted is the
purged one and the suppressing record is younger than 2 hours — hence no
record older than 24 hours ever suppresses a notification. -/
theorem expired_titles_purged (cfg : Config) (post : PostElem) (now : Int)
    (sendOk : Bool) :
    (∀ p, p ∈ purgeTitles cfg.title_notifications now ↔
        p ∈ cfg.title_notifications ∧ now - p.2.time ≤ 86400) ∧
    ((processPost cfg post now sendOk).2 = .titleGate →
      (processPost cfg post now sendOk).1.title_notifications =
        purgeTitles cfg.title_notifications now ∧
      ∃ title link eid, extractItem post = .ok title link eid ∧
        ∃ p ∈ cfg.title_notifications,
          similarTitle (normTitle title) p.1 = true ∧
          now - p.2.time < 7200 ∧ now - p.2.time ≤ 86400) := by
  refine ⟨fun p => mem_purgeTitles _ _ p, ?_⟩
  intro hres
  rcases hE : extractItem post with _ | _ | _ | _ | ⟨title, link, eid⟩
  · simp [processPost, hE] at hres
  · simp [processPost, hE] at hres
  · simp [processPost, hE] at hres
  · simp [processPost, hE] at hres
  · by_cases hT : titleHit cfg (normTitle title) now
    · have h1 : processPost cfg post now sendOk =
          ({cfg with title_notifications := purgeTitles cfg.title_notifications now},
           .titleGate) := by
        simp [processPost, hE, hT]
      refine ⟨by rw [h1], title, link, eid, rfl, ?_⟩
      obtain ⟨p, hp, hcond⟩ := List.any_eq_true.mp hT
      obtain ⟨hmem, hage⟩ := (mem_purgeTitles _ _ _).mp hp
      rw [Bool.and_eq_true] at hcond
      obtain ⟨hsim, htime⟩ := hcond
      exact ⟨p, hmem, hsim, of_decide_eq_true htime, hage⟩
    · exfalso
      by_cases hid : dictContains cfg.notified_entries eid
      · simp [processPost, hE, hT, hid] at hres
      · by_cases hkw : (matchedKeywords cfg.keywords title).isEmpty
        · simp [processPost, hE, hT, hid, hkw] at hres
        · by_cases hs : sendOk
          · simp [processPost, hE, hT, hid, hkw, hs] at hres
          · simp [processPost, hE, hT, hid, hkw, hs] at hres

/-- Witness for C5: a 100-second-old identical title record suppresses
`wPost` and is indeed younger than both windows. -/
theorem expired_titles_purged_witness :
    (processPost wCfgTitle wPost 100 true).2 = .titleGate ∧
    (processPost wCfgTitle wPost 100 true).1.title_notifications =
      purgeTitles wCfgTitle.title_notifications 100 := by
  refine ⟨by decide, ?_⟩
  exact ((expired_titles_purged wCfgTitle wPost 100 true).2 (by decide)).1

/-- Claim C6: discovery accepts the first selector with at least 5 matches,
capped at 40; when no selector reaches 5, the fallbacks fire in order —
divs with a link and a non-trivial text block, content-path links, table
rows minus the header — and every result is capped at 40 items. -/
theorem discovery_strategy_chain (soup : Soup) :
    (findPosts soup).length ≤ 40 ∧
    (∀ sel, firstHit soup = some sel →
      sel ∈ selectors_to_try ∧ 5 ≤ (soup.select sel).length ∧
      findPosts soup = (soup.select sel).take 40) ∧
    (firstHit soup = none →
      ∀ sel ∈ selectors_to_try, (soup.select sel).length < 5) ∧
    (firstHit soup = none → ¬divFallback soup = [] →
      findPosts soup = divFallback soup ∧
      ∀ d ∈ divFallback soup,
        d ∈ soup.allDivs.take 100 ∧ ¬(d.links.take 5) = [] ∧ d.text.length > 20) ∧
    (firstHit soup = none → divFallback soup = [] →
      ¬(soup.select contentLinkSelector).take 40 = [] →
      findPosts soup = (soup.select contentLinkSelector).take 40) ∧
    (firstHit soup = none → divFallback soup = [] →
      (soup.select contentLinkSelector).take 40 = [] →
      1 < ((soup.select "table tr").take 40).length →
      findPosts soup = ((soup.select "table tr").take 40).drop 1) := by
  refine ⟨?_, ?_, ?_, ?_, ?_, ?_⟩
  · unfold findPosts
    split
    next => rw [List.length_take]; omega
    next =>
      dsimp only
      split
      next =>
        split
        next =>
          split
          next =>
            split
            next => rw [List.length_take]; omega
            next => rw [List.length_drop, List.length_take]; omega
          next => simp
        next => rw [List.length_take]; omega
      next => unfold divFallback; rw [List.length_take]; omega
  · intro sel hF
    refine ⟨List.mem_of_find?_eq_some hF, ?_, ?_⟩
    · have := List.find?_some hF
      exact of_decide_eq_true this
    · simp [findPosts, hF]
  · intro hF sel hmem
    have h := List.find?_eq_none.mp hF sel hmem
    simpa using h
  · intro hF hdiv
    constructor
    · simp only [findPosts, hF]
      rw [if_neg (by simpa [List.isEmpty_iff] using hdiv)]
    · intro d hd
      have hd1 := List.mem_of_mem_take hd
      have hd2 := List.mem_filter.mp hd1
      refine ⟨hd2.1, ?_, ?_⟩
      · have := hd2.2
        rw [Bool.and_eq_true] at this
        simpa [List.isEmpty_iff] using this.1
      · have := hd2.2
        rw [Bool.and_eq_true] at this
        exact of_decide_eq_true this.2
  · intro hF hdiv hls
    simp only [findPosts, hF]
    rw [if_pos (by simpa [List.isEmpty_iff] using hdiv),
        if_neg (by simpa [List.isEmpty_iff] using hls)]
  · intro hF hdiv hls hrows
    simp only [findPosts, hF]
    rw [if_pos (by simpa [List.isEmpty_iff] using hdiv),
        if_pos (by simpa [List.isEmpty_iff] using hls),
        if_pos hrows, if_neg (by rw [List.length_take]; omega)]

/-- Witness for C6: on `wSoup` the second selector, `.post-card`, is the
first to reach five matches and its matches are the item set. -/
theorem discovery_strategy_chain_witness :
    firstHit wSoup = some ".post-card" ∧
    findPosts wSoup = (wSoup.select ".post-card").take 40 ∧
    5 ≤ (wSoup.select ".post-card").length := by
  have hF : firstHit wSoup = some ".post-card" := by rfl
  have h := (discovery_strategy_chain wSoup).2.1 ".post-card" hF
  exact ⟨hF, h.2.2, h.2.1⟩

/-- Counterexample to C7 as stated: on `c7post` (title element found but
empty text, 60-character full text) the fallback title is NOT the full text
truncated to 50 characters — the code appends a three-character ellipsis,
yielding 53 characters. -/
theorem title_fallback_truncation_cex :
    titleElement c7post = some c7elem ∧ c7elem.text = "" ∧
    mkTitle c7post c7elem ≠ pySlice c7post.text 50 ∧
    ¬(mkTitle c7post c7elem).length ≤ 50 ∧
    (mkTitle c7post c7elem).length = 53 := by
  refine ⟨by decide, by decide, by decide, by decide, by decide⟩

/-- Claim C7 (amended): when the found title element has empty text, the
title becomes the element's full text, truncated to its first 50 characters
with a trailing `"..."` appended when longer than 50; any item whose
resulting title has fewer than 2 characters is rejected before any store
access or notification. -/
theorem title_fallback_truncation (post : PostElem) (e : AElem)
    (hE : titleElement post = some e) :
    (e.text = "" → mkTitle post e =
      (if post.text.length > 50 then pySlice post.text 50 ++ "..." else post.text)) ∧
    ((mkTitle post e).length < 2 →
      extractItem post = .shortTitle ∧
      ∀ cfg now sendOk, processPost cfg post now sendOk = (cfg, .shortTitle)) := by
  constructor
  · intro h
    simp [mkTitle, h]
  · intro h
    have hx : extractItem post = .shortTitle := by
      simp [extractItem, hE, h]
    exact ⟨hx, fun cfg now sendOk => by simp [processPost, hx]⟩

/-- Witness for the amended C7 at `c7post`: the fallback title is the
truncated-plus-ellipsis form; a short-title post is dropped whole. -/
theorem title_fallback_truncation_witness :
    c7elem.text = "" ∧
    mkTitle c7post c7elem =
      (if c7post.text.length > 50 then pySlice c7post.text 50 ++ "..." else c7post.text) := by
  exact ⟨by decide,
    (title_fallback_truncation c7post c7elem (by decide)).1 (by decide)⟩

/-- Every resolved link starts with `http`. -/
lemma resolveLink_http (l : String) : strStartsWith (resolveLink l) "http" = true := by
  unfold resolveLink
  split
  next h => exact h
  next =>
    split
    next => rfl
    next => rfl

/-- Claim C8: an item that reaches the gates carries an absolute
(`http`-prefixed) link; an item whose resolved link contains `/space/` is
dropped before the purge, the gates, and the stores, leaving the config
untouched and producing no notification; and the `/space/` test is applied
to the resolved link. -/
theorem absolute_link_invariant :
    (∀ post title link eid, extractItem post = .ok title link eid →
      strStartsWith link "http" = true) ∧
    (∀ cfg post now sendOk, extractItem post = .spaceLink →
      processPost cfg post now sendOk = (cfg, .spaceLink)) ∧
    (∀ post e l0, titleElement post = some e → ¬(mkTitle post e).length < 2 →
      rawLink post e = some l0 → strContains (resolveLink l0) "/space/" = true →
      extractItem post = .spaceLink) := by
  refine ⟨?_, ?_, ?_⟩
  · intro post title link eid hx
    unfold extractItem at hx
    rcases hT : titleElement post with _ | e <;> rw [hT] at hx <;> dsimp only at hx
    · exact absurd hx (by simp)
    · split at hx
      · exact absurd hx (by simp)
      · rcases hL : rawLink post e with _ | l0 <;> rw [hL] at hx <;> dsimp only at hx
        · exact absurd hx (by simp)
        · split at hx
          · exact absurd hx (by simp)
          · injection hx with h1 h2 h3
            rw [← h2]
            exact resolveLink_http l0
  · intro cfg post now sendOk hx
    simp [processPost, hx]
  · intro post e l0 hE hlen hL hsp
    simp [extractItem, hE, hlen, hL, hsp]

/-- Witness for C8: `wPost`'s relative link resolves to an absolute one,
and `wPostSpace` (link `/space/55`) is discarded with the config intact. -/
theorem absolute_link_invariant_witness :
    extractItem wPostSpace = .spaceLink ∧
    strStartsWith "https://www.nodeseek.com/post/123" "http" = true ∧
    processPost wCfg wPostSpace 0 true = (wCfg, .spaceLink) := by
  refine ⟨by decide, ?_, ?_⟩
  · exact absolute_link_invariant.1 wPost "hello" "https://www.nodeseek.com/post/123"
      "post_123" (by decide)
  · exact absolute_link_invariant.2.1 wCfg wPostSpace 0 true (by decide)

/-- Counterexample to C9 as stated: on a page that validates as NodeSeek but
where every strategy and fallback yields zero items, the code DOES set the
session-refresh flag (`need_cookie_refresh = True`, line 522), exactly as
the structure-mismatch path does. -/
theorem no_items_refresh_cex :
    isValidPage noItemsSoup = true ∧
    (classifyAttempt noItemsSoup).outcome = .noItems ∧
    (classifyAttempt noItemsSoup).needCookieRefresh = true := by
  refine ⟨by decide, by decide, by decide⟩

/-- Claim C9 (amended): a validated page with zero discovered items yields
the `no items found` outcome, retries with backoff AND sets the
session-refresh flag — the same flag behaviour as a structure mismatch; the
backoff delay is `10 * (attempt + 2)` seconds in both cases. -/
theorem no_items_outcome (soup soup2 : Soup) (attempt : Nat)
    (hv : isValidPage soup = true) (he : findPosts soup = [])
    (hv2 : isValidPage soup2 = false) :
    classifyAttempt soup =
      { outcome := .noItems, needCookieRefresh := true, retriesWithBackoff := true } ∧
    classifyAttempt soup2 =
      { outcome := .structureMismatch, needCookieRefresh := true,
        retriesWithBackoff := true } ∧
    retryDelaySeconds attempt = 10 * (attempt + 2) := by
  refine ⟨?_, ?_, rfl⟩
  · simp [classifyAttempt, hv, he]
  · simp [classifyAttempt, hv2]

/-- Witness for the amended C9 at the concrete no-items page. -/
theorem no_items_outcome_witness :
    isValidPage noItemsSoup = true ∧ findPosts noItemsSoup = [] ∧
    classifyAttempt noItemsSoup =
      { outcome := .noItems, needCookieRefresh := true, retriesWithBackoff := true } := by
  refine ⟨by decide, by rfl, ?_⟩
  exact (no_items_outcome noItemsSoup mismatchSoup 0 (by decide) (by rfl) (by decide)).1

/-- Claim C10: when the serialized record would exceed 1 MB, the saved
record keeps the keywords and telegram settings unchanged and retains
exactly the 20 newest entries (descending-by-time head) of each store;
every retained entry is at least as new as every discarded one. -/
theorem oversize_save_trim (c : Config) (tooBig : Config → Bool)
    (h : tooBig (saveConfigPretrim c) = true) :
    (save_config_prepare c tooBig).keywords = c.keywords ∧
    (save_config_prepare c tooBig).telegram = c.telegram ∧
    (save_config_prepare c tooBig).notified_entries =
      (sortDesc (fun p => p.2.time) (saveConfigPretrim c).notified_entries).take 20 ∧
    (save_config_prepare c tooBig).title_notifications =
      (sortDesc (fun p => p.2.time) (saveConfigPretrim c).title_notifications).take 20 ∧
    (save_config_prepare c tooBig).notified_entries.length ≤ 20 ∧
    (save_config_prepare c tooBig).title_notifications.length ≤ 20 ∧
    (∀ a ∈ (save_config_prepare c tooBig).notified_entries,
     ∀ b ∈ (sortDesc (fun p => p.2.time) (saveConfigPretrim c).notified_entries).drop 20,
       b.2.time ≤ a.2.time) ∧
    (∀ a ∈ (save_config_prepare c tooBig).title_notifications,
     ∀ b ∈ (sortDesc (fun p => p.2.time) (saveConfigPretrim c).title_notifications).drop 20,
       b.2.time ≤ a.2.time) := by
  have hs : save_config_prepare c tooBig =
      { keywords := (saveConfigPretrim c).keywords,
        telegram := (saveConfigPretrim c).telegram,
        notified_entries :=
          (sortDesc (fun p => p.2.time) (saveConfigPretrim c).notified_entries).take 20,
        title_notifications :=
          (sortDesc (fun p => p.2.time) (saveConfigPretrim c).title_notifications).take 20 } := by
    simp [save_config_prepare, h]
  rw [hs]
  refine ⟨?_, ?_, rfl, rfl, ?_, ?_, ?_, ?_⟩
  · simp [saveConfigPretrim]
  · simp [saveConfigPretrim]
  · rw [List.length_take]; omega
  · rw [List.length_take]; omega
  · exact fun a ha b hb => sortDesc_take_drop (fun p => p.2.time) _ 20 a ha b hb
  · exact fun a ha b hb => sortDesc_take_drop (fun p => p.2.time) _ 20 a ha b hb

/-- Witness for C10 on a concrete over-1MB save. -/
theorem oversize_save_trim_witness :
    (fun _ => true : Config → Bool) (saveConfigPretrim c10cfg) = true ∧
    (save_config_prepare c10cfg (fun _ => true)).keywords = c10cfg.keywords ∧
    (save_config_prepare c10cfg (fun _ => true)).telegram = c10cfg.telegram ∧
    (save_config_prepare c10cfg (fun _ => true)).notified_entries =
      (sortDesc (fun p => p.2.time) (saveConfigPretrim c10cfg).notified_entries).take 20 := by
  have h := oversize_save_trim c10cfg (fun _ => true) (by decide)
  exact ⟨by decide, h.1, h.2.1, h.2.2.1⟩

end RssMonitor
